import Mathlib

/-! Shallow embedding of the population-density resolution logic of the
repository (the functions `get_osm_administrative_areas`,
`get_population_and_area_wikidata`, `search_alternative_wikidata_ids`,
`get_population_density` and `determine_rarity` from
src/population_density.py and src/app.py), together with theorems that
settle the specification claims.

Modelling conventions:
* Python ints are embedded as `Int`, Python floats as `ℚ` (only exact
  comparisons and a single division occur in the source, so the rational
  embedding is faithful on every representable input).
* Every upstream HTTP interaction is an input of the embedded function:
  a response is either a transport error (`requests.exceptions.RequestException`,
  which the source catches) or a parsed JSON payload.  A missing
  `results`/`bindings`/`elements` key in a payload is observationally the
  same as an empty list in the source, so payloads are embedded as lists.
* A SPARQL value string is represented by its parse behaviour under
  Python `int()` and `float()` (`asInt`/`asFloat`, `none` meaning the
  conversion raises `ValueError`).
* The function `search_alternative_wikidata_ids` only extracts the `id`
  fields of the response, so a search response is embedded as a list of
  identifier strings (or a transport error).
* Python `sorted(key, reverse=True)` is the stable descending sort by the
  key; it is embedded as `List.insertionSort` with the relation
  `areaGe`, which is extensionally that sort (an inserted element passes
  over exactly the strictly greater keys, preserving the relative order
  of equal keys).
-/

/-- A Python value that is either numeric (int/float, embedded as `ℚ`)
or a string; used for the `area_km2` and `population_density` fields,
which hold either a number or a sentinel string in the source. -/
inductive PyVal where
  | num (q : ℚ)
  | str (s : String)
deriving DecidableEq, Repr

/-- A SPARQL value string, represented by its parse behaviour under
Python `int()` (`asInt`) and `float()` (`asFloat`); `none` means the
conversion raises `ValueError`. -/
structure WdValue where
  asInt : Option Int
  asFloat : Option ℚ
deriving DecidableEq, Repr

/-- One entry of `results.bindings` in a SPARQL JSON response: the
optional bound variables `population` and `area`. -/
structure SparqlBinding where
  population : Option WdValue
  area : Option WdValue
deriving DecidableEq, Repr

/-- An upstream response to the Wikidata SPARQL query issued by
`get_population_and_area_wikidata`: a transport error or the list
`results.bindings` (a payload missing those keys behaves as `[]`). -/
inductive SparqlResponse where
  | requestError (msg : String)
  | results (bindings : List SparqlBinding)
deriving DecidableEq, Repr

/-- The successful payload of `get_population_and_area_wikidata`: the
dictionary with keys `population`, `area_km2`, `population_density`. -/
structure DensityRecord where
  population : Int
  area_km2 : PyVal
  population_density : PyVal
deriving DecidableEq, Repr

/-- The result dictionary of `get_population_and_area_wikidata`: either
the density record or a dictionary carrying an `error` key. -/
inductive FetchResult where
  | ok (r : DensityRecord)
  | err (msg : String)
deriving DecidableEq, Repr

/-- Truth of the Python test `"error" in population_data`. -/
def FetchResult.isErr : FetchResult → Bool
  | .ok _ => false
  | .err _ => true

/-- Embedding of `get_population_and_area_wikidata` from
src/population_density.py (lines 49-113).  The nested `try/except`
structure of the source becomes case analysis on the response: a
transport error yields the `Request failed:` message; an empty binding
list yields the no-data message; a population value that is absent or
fails `int()` yields the invalid-population message; otherwise `area`
is taken when present and `float()`-parsable, and the Python truthiness
test `if area:` makes a parsed `0.0` behave exactly like a missing
area. -/
def get_population_and_area_wikidata (resp : SparqlResponse) : FetchResult :=
  match resp with
  | .requestError e => .err ("Request failed: " ++ e)
  | .results bindings =>
    match bindings with
    | [] => .err "No population or area data found for this Wikidata ID."
    | result :: _ =>
      match result.population.bind WdValue.asInt with
      | none => .err "Population data is not in a valid format."
      | some population =>
        match result.area.bind WdValue.asFloat with
        | none =>
          .ok { population := population, area_km2 := .str "Unknown",
                population_density := .str "Cannot calculate (no area data)" }
        | some area =>
          if area = 0 then
            .ok { population := population, area_km2 := .str "Unknown",
                  population_density := .str "Cannot calculate (no area data)" }
          else
            .ok { population := population, area_km2 := .num area,
                  population_density := .num ((population : ℚ) / area) }

/-- Embedding of `get_population_and_area_wikidata` from src/app.py
(lines 101-153).  Identical to the src/population_density.py version
except for the text of the invalid-population error message
(`Population data is not valid.` instead of
`Population data is not in a valid format.`). -/
def app_get_population_and_area_wikidata (resp : SparqlResponse) : FetchResult :=
  match resp with
  | .requestError e => .err ("Request failed: " ++ e)
  | .results bindings =>
    match bindings with
    | [] => .err "No population or area data found for this Wikidata ID."
    | result :: _ =>
      match result.population.bind WdValue.asInt with
      | none => .err "Population data is not valid."
      | some population =>
        match result.area.bind WdValue.asFloat with
        | none =>
          .ok { population := population, area_km2 := .str "Unknown",
                population_density := .str "Cannot calculate (no area data)" }
        | some area =>
          if area = 0 then
            .ok { population := population, area_km2 := .str "Unknown",
                  population_density := .str "Cannot calculate (no area data)" }
          else
            .ok { population := population, area_km2 := .num area,
                  population_density := .num ((population : ℚ) / area) }

/-- Embedding of `determine_rarity` from src/app.py (lines 215-233):
`None` for a non-numeric argument, otherwise the tier given by the
chain of strict upper-bound tests. -/
def determine_rarity (population_density : PyVal) : Option Nat :=
  match population_density with
  | .str _ => none
  | .num d =>
    if d < 25 then some 1
    else if d < 100 then some 2
    else if d < 500 then some 3
    else some 4

/-- An upstream response to the `wbsearchentities` query issued by
`search_alternative_wikidata_ids`: a transport error or the list of
`id` fields of the `search` array (a payload without a `search` key
behaves as `[]`). -/
inductive SearchResponse where
  | requestError (msg : String)
  | results (ids : List String)
deriving DecidableEq, Repr

/-- Embedding of `search_alternative_wikidata_ids` (identical in
src/population_density.py lines 115-141 and src/app.py lines 155-174):
the candidate identifiers on success, the empty list on a transport
error. -/
def search_alternative_wikidata_ids (resp : SearchResponse) : List String :=
  match resp with
  | .requestError _ => []
  | .results ids => ids

/-- The tags mapping of an Overpass element.  The `admin_level` tag is
represented by its `int()` parse behaviour: `none` when the tag is
absent, `some none` when present but unparsable, `some (some k)` when
it parses to `k`. -/
structure OsmTags where
  name : Option String
  wikidata : Option String
  admin_level : Option (Option Int)
deriving DecidableEq, Repr

/-- One entry of the `elements` array of an Overpass response; the
`tags` mapping may be absent. -/
structure OsmElement where
  tags : Option OsmTags
deriving DecidableEq, Repr

/-- An upstream response to the Overpass query issued by
`get_osm_administrative_areas`: a transport error or the `elements`
array (a payload without an `elements` key behaves as `[]`). -/
inductive OverpassResponse where
  | requestError (msg : String)
  | elements (els : List OsmElement)
deriving DecidableEq, Repr

/-- One entry of the list built by `get_osm_administrative_areas`: the
dictionary with keys `name`, `wikidata_id`, `admin_level`.  `name` is
`tags.get("name")`, hence possibly `None`. -/
structure AdministrativeArea where
  name : Option String
  wikidata_id : String
  admin_level : Int
deriving DecidableEq, Repr

/-- Computation of `int(element["tags"].get("admin_level", 99))` with
`ValueError` caught: 99 when the tag is absent or unparsable. -/
def parseAdminLevel (t : OsmTags) : Int :=
  match t.admin_level with
  | none => 99
  | some none => 99
  | some (some k) => k

/-- The body of the element loop of `get_osm_administrative_areas`: an
element is retained exactly when it has a `tags` mapping containing a
`wikidata` key; the retained dictionary takes `tags.get("name")`,
`tags.get("wikidata")` and the parsed admin level. -/
def elementToArea (el : OsmElement) : Option AdministrativeArea :=
  match el.tags with
  | none => none
  | some t =>
    match t.wikidata with
    | none => none
    | some w => some { name := t.name, wikidata_id := w, admin_level := parseAdminLevel t }

/-- Comparison used by `sorted(areas, key=admin_level, reverse=True)`:
`a` may come before `b` exactly when the key of `a` is at least the key
of `b`. -/
def areaGe (a b : AdministrativeArea) : Prop := b.admin_level ≤ a.admin_level

instance : DecidableRel areaGe := fun a b =>
  inferInstanceAs (Decidable (b.admin_level ≤ a.admin_level))

instance : IsTotal AdministrativeArea areaGe :=
  ⟨fun a b => le_total b.admin_level a.admin_level⟩

instance : IsTrans AdministrativeArea areaGe :=
  ⟨fun _ _ _ hab hbc => le_trans hbc hab⟩

/-- Embedding of `get_osm_administrative_areas` (identical in
src/population_density.py lines 3-47 and src/app.py lines 64-99): a
transport error yields `[]`; otherwise the retained elements, in
upstream order, stably sorted in descending order of `admin_level`. -/
def get_osm_administrative_areas (resp : OverpassResponse) : List AdministrativeArea :=
  match resp with
  | .requestError _ => []
  | .elements els => List.insertionSort areaGe (els.filterMap elementToArea)

example :
    get_population_and_area_wikidata
      (.results [{ population := some { asInt := some 500000, asFloat := some 500000 },
                   area := some { asInt := none, asFloat := some 1000 } }]) =
      .ok { population := 500000, area_km2 := .num 1000, population_density := .num 500 } := by
  norm_num [get_population_and_area_wikidata]

example : determine_rarity (.num 500) = some 4 := by decide

/-- The complete upstream environment of one call to
`get_population_density`: the Overpass response for the queried
coordinate, the SPARQL response for each Wikidata identifier, and the
entity-search response for each area name (the name may be Python
`None`, hence `Option String`). -/
structure Upstream where
  overpass : OverpassResponse
  sparql : String → SparqlResponse
  search : Option String → SearchResponse

/-- The success dictionary returned by `get_population_density`:
`location`, `admin_level`, `population`, `area_km2`,
`population_density`, and the `wikidata_id` key that is present exactly
when an alternative identifier supplied the data. -/
structure ResolutionResult where
  location : Option String
  admin_level : Int
  population : Int
  area_km2 : PyVal
  population_density : PyVal
  wikidata_id : Option String
deriving DecidableEq, Repr

/-- The dictionary returned by `get_population_density`: a success
dictionary or a dictionary carrying an `error` key. -/
inductive PDResult where
  | ok (r : ResolutionResult)
  | err (msg : String)
deriving DecidableEq, Repr

/-- The inner `for alt_id in alternatives` loop of
`get_population_density` from src/population_density.py (lines
180-194): candidates equal to the already-tried identifier are skipped;
the first candidate whose fetch succeeds is returned together with its
record.  The second component is the list of identifiers actually
passed to `get_population_and_area_wikidata` by the loop, in call
order (instrumentation only, it does not influence the result). -/
def tryAlternatives (u : Upstream) (origId : String) :
    List String → Option (String × DensityRecord) × List String
  | [] => (none, [])
  | alt :: rest =>
    if alt = origId then tryAlternatives u origId rest
    else
      match get_population_and_area_wikidata (u.sparql alt) with
      | .ok r => (some (alt, r), [alt])
      | .err _ =>
        ((tryAlternatives u origId rest).1, alt :: (tryAlternatives u origId rest).2)

/-- The outer `for area in areas` loop of `get_population_density` from
src/population_density.py (lines 164-197), with the same
fetched-identifier instrumentation as `tryAlternatives`. -/
def densityLoop (u : Upstream) : List AdministrativeArea → PDResult × List String
  | [] =>
    (.err "Could not fetch population or area data from Wikidata for any administrative area.",
     [])
  | area :: rest =>
    match get_population_and_area_wikidata (u.sparql area.wikidata_id) with
    | .ok r =>
      (.ok { location := area.name, admin_level := area.admin_level,
             population := r.population, area_km2 := r.area_km2,
             population_density := r.population_density, wikidata_id := none },
       [area.wikidata_id])
    | .err _ =>
      match (tryAlternatives u area.wikidata_id
              (search_alternative_wikidata_ids (u.search area.name))).1 with
      | some ar =>
        (.ok { location := area.name, admin_level := area.admin_level,
               population := ar.2.population, area_km2 := ar.2.area_km2,
               population_density := ar.2.population_density, wikidata_id := some ar.1 },
         area.wikidata_id :: (tryAlternatives u area.wikidata_id
            (search_alternative_wikidata_ids (u.search area.name))).2)
      | none =>
        ((densityLoop u rest).1,
         area.wikidata_id :: ((tryAlternatives u area.wikidata_id
              (search_alternative_wikidata_ids (u.search area.name))).2
            ++ (densityLoop u rest).2))

/-- Embedding of `get_population_density` from src/population_density.py
(lines 143-197), instrumented with the list of identifiers passed to
`get_population_and_area_wikidata`, in call order. -/
def get_population_density_traced (u : Upstream) : PDResult × List String :=
  if get_osm_administrative_areas u.overpass = [] then
    (.err "No administrative areas found for this location.", [])
  else densityLoop u (get_osm_administrative_areas u.overpass)

/-- Embedding of `get_population_density` from src/population_density.py
(lines 143-197): the returned dictionary. -/
def get_population_density (u : Upstream) : PDResult :=
  (get_population_density_traced u).1

/-- The inner alternatives loop of `get_population_density` from
src/app.py (lines 198-211); textually identical to the
src/population_density.py loop but calling the src/app.py fetch
function. -/
def app_tryAlternatives (u : Upstream) (origId : String) :
    List String → Option (String × DensityRecord) × List String
  | [] => (none, [])
  | alt :: rest =>
    if alt = origId then app_tryAlternatives u origId rest
    else
      match app_get_population_and_area_wikidata (u.sparql alt) with
      | .ok r => (some (alt, r), [alt])
      | .err _ =>
        ((app_tryAlternatives u origId rest).1, alt :: (app_tryAlternatives u origId rest).2)

/-- The outer area loop of `get_population_density` from src/app.py
(lines 183-213). -/
def app_densityLoop (u : Upstream) : List AdministrativeArea → PDResult × List String
  | [] =>
    (.err "Could not fetch population or area data from Wikidata for any administrative area.",
     [])
  | area :: rest =>
    match app_get_population_and_area_wikidata (u.sparql area.wikidata_id) with
    | .ok r =>
      (.ok { location := area.name, admin_level := area.admin_level,
             population := r.population, area_km2 := r.area_km2,
             population_density := r.population_density, wikidata_id := none },
       [area.wikidata_id])
    | .err _ =>
      match (app_tryAlternatives u area.wikidata_id
              (search_alternative_wikidata_ids (u.search area.name))).1 with
      | some ar =>
        (.ok { location := area.name, admin_level := area.admin_level,
               population := ar.2.population, area_km2 := ar.2.area_km2,
               population_density := ar.2.population_density, wikidata_id := some ar.1 },
         area.wikidata_id :: (app_tryAlternatives u area.wikidata_id
            (search_alternative_wikidata_ids (u.search area.name))).2)
      | none =>
        ((app_densityLoop u rest).1,
         area.wikidata_id :: ((app_tryAlternatives u area.wikidata_id
              (search_alternative_wikidata_ids (u.search area.name))).2
            ++ (app_densityLoop u rest).2))

/-- Embedding of `get_population_density` from src/app.py (lines
176-213), instrumented like `get_population_density_traced`. -/
def app_get_population_density_traced (u : Upstream) : PDResult × List String :=
  if get_osm_administrative_areas u.overpass = [] then
    (.err "No administrative areas found for this location.", [])
  else app_densityLoop u (get_osm_administrative_areas u.overpass)

/-- Embedding of `get_population_density` from src/app.py (lines
176-213): the returned dictionary. -/
def app_get_population_density (u : Upstream) : PDResult :=
  (app_get_population_density_traced u).1

/-- Binding whose population parses to 100 and whose area value parses
as the negative float -5.0 (as for an upstream record storing a
negative area). -/
def negAreaBinding : SparqlBinding :=
  { population := some { asInt := some 100, asFloat := some 100 },
    area := some { asInt := none, asFloat := some (-5) } }

/-- Binding with a well-formed population and an area value parsing to
the float 0.0. -/
def zeroAreaBinding : SparqlBinding :=
  { population := some { asInt := some 5, asFloat := some 5 },
    area := some { asInt := some 0, asFloat := some 0 } }

/-- Binding of a SPARQL row that does not bind the `population`
variable at all (only `area`). -/
def noPopBinding : SparqlBinding :=
  { population := none, area := some { asInt := some 10, asFloat := some 10 } }

/-- C3 counterexample: `determine_rarity` returns tier 1 on the numeric
density -1 although -1 does not lie in [0, 25), so tier 1 is not
equivalent to membership in [0, 25). -/
theorem claim_C3_cex :
    determine_rarity (.num (-1)) = some 1 ∧ ¬ ((0:ℚ) ≤ -1 ∧ (-1:ℚ) < 25) := by
  decide

/-- C3 (amended): for every numeric density d, `determine_rarity`
returns 1 iff d < 25 (negative densities included), 2 iff 25 ≤ d < 100,
3 iff 100 ≤ d < 500 and 4 iff d ≥ 500, and returns `none` on every
non-numeric value; the boundary values 25, 100 and 500 map to tiers 2,
3 and 4. -/
theorem claim_C3 (d : ℚ) (s : String) :
    (determine_rarity (.num d) = some 1 ↔ d < 25) ∧
    (determine_rarity (.num d) = some 2 ↔ 25 ≤ d ∧ d < 100) ∧
    (determine_rarity (.num d) = some 3 ↔ 100 ≤ d ∧ d < 500) ∧
    (determine_rarity (.num d) = some 4 ↔ 500 ≤ d) ∧
    determine_rarity (.str s) = none ∧
    determine_rarity (.num 25) = some 2 ∧
    determine_rarity (.num 100) = some 3 ∧
    determine_rarity (.num 500) = some 4 := by
  refine ⟨?_, ?_, ?_, ?_, rfl, by decide, by decide, by decide⟩ <;>
    · simp only [determine_rarity]
      split_ifs with h1 h2 h3 <;>
        simp <;>
        first
          | linarith
          | (intro h; linarith)
          | (intro h h4; linarith)
          | exact ⟨by linarith, by linarith⟩

/-- C3 witness: the amended characterization applied at the concrete
density 7, which is classified as tier 1. -/
theorem claim_C3_witness : determine_rarity (.num 7) = some 1 :=
  (claim_C3 7 "x").1.mpr (by decide)

/-- C5 counterexample: on a binding whose area value parses to the
float -5.0 (which is not positive), `get_population_and_area_wikidata`
computes the density 100 / -5 = -20 instead of returning the
unknown-area sentinel record, because the source only tests Python
truthiness of the parsed area. -/
theorem claim_C5_cex :
    get_population_and_area_wikidata (.results [negAreaBinding]) =
      .ok { population := 100, area_km2 := .num (-5), population_density := .num (-20) } ∧
    ¬ (0 < (-5 : ℚ)) := by
  refine ⟨?_, by decide⟩
  norm_num [get_population_and_area_wikidata, negAreaBinding]

/-- C5 (amended): for every fetch whose first binding has a population
value parsing as an integer: if the area value parses as a NON-ZERO
float (the source tests Python truthiness, not positivity) the record
carries that float as `area_km2` and the float division
population / area as density; if the area is absent, unparsable, or
parses to 0.0, the record carries the area sentinel `Unknown` and the
non-numeric density sentinel, and this is a success, not a failure. -/
theorem claim_C5 (b : SparqlBinding) (rest : List SparqlBinding) (p : Int)
    (hpop : b.population.bind WdValue.asInt = some p) :
    (∀ a : ℚ, b.area.bind WdValue.asFloat = some a → a ≠ 0 →
      get_population_and_area_wikidata (.results (b :: rest)) =
        .ok { population := p, area_km2 := .num a,
              population_density := .num ((p : ℚ) / a) }) ∧
    (b.area.bind WdValue.asFloat = none →
      get_population_and_area_wikidata (.results (b :: rest)) =
        .ok { population := p, area_km2 := .str "Unknown",
              population_density := .str "Cannot calculate (no area data)" }) ∧
    (b.area.bind WdValue.asFloat = some 0 →
      get_population_and_area_wikidata (.results (b :: rest)) =
        .ok { population := p, area_km2 := .str "Unknown",
              population_density := .str "Cannot calculate (no area data)" }) := by
  refine ⟨?_, ?_, ?_⟩
  · intro a ha h0
    simp [get_population_and_area_wikidata, hpop, ha, h0]
  · intro ha
    simp [get_population_and_area_wikidata, hpop, ha]
  · intro ha
    simp [get_population_and_area_wikidata, hpop, ha]

/-- C5 witness: the amended theorem applied to a concrete binding with
population 5 and area 0.0, which yields the sentinel record. -/
theorem claim_C5_witness :
    get_population_and_area_wikidata (.results [zeroAreaBinding]) =
      .ok { population := 5, area_km2 := .str "Unknown",
            population_density := .str "Cannot calculate (no area data)" } :=
  (claim_C5 zeroAreaBinding [] 5 rfl).2.2 rfl

/-- C6 counterexample: on a non-empty result set whose first binding
has NO population value at all (and no transport error), the claimed
case analysis predicts success, but the source raises `KeyError`
internally and returns the invalid-population error value. -/
theorem claim_C6_cex :
    get_population_and_area_wikidata (.results [noPopBinding]) =
      .err "Population data is not in a valid format." ∧
    noPopBinding.population = none ∧
    ([noPopBinding] : List SparqlBinding) ≠ [] := by decide

/-- C6 (amended): `get_population_and_area_wikidata` fails in exactly
three ways, each returned as a value, never raised: the request-failed
message (carrying the transport message) on a transport error, the
no-data message on an empty result set, and the invalid-population
message when the population value of the first binding is ABSENT or
does not parse as an integer; in every other case it succeeds with a
record carrying the parsed population. -/
theorem claim_C6 (resp : SparqlResponse) :
    (∀ m, resp = .requestError m →
      get_population_and_area_wikidata resp = .err ("Request failed: " ++ m)) ∧
    (resp = .results [] →
      get_population_and_area_wikidata resp =
        .err "No population or area data found for this Wikidata ID.") ∧
    (∀ b rest, resp = .results (b :: rest) →
      b.population.bind WdValue.asInt = none →
      get_population_and_area_wikidata resp =
        .err "Population data is not in a valid format.") ∧
    (∀ b rest p, resp = .results (b :: rest) →
      b.population.bind WdValue.asInt = some p →
      ∃ r, get_population_and_area_wikidata resp = .ok r ∧ r.population = p) := by
  refine ⟨?_, ?_, ?_, ?_⟩
  · rintro m rfl; rfl
  · rintro rfl; rfl
  · rintro b rest rfl h
    simp [get_population_and_area_wikidata, h]
  · rintro b rest p rfl h
    simp only [get_population_and_area_wikidata, h]
    cases ha : b.area.bind WdValue.asFloat with
    | none => exact ⟨_, rfl, rfl⟩
    | some a =>
      by_cases h0 : a = 0
      · subst h0
        simp
      · simp only [if_neg h0]
        exact ⟨_, rfl, rfl⟩

/-- C6 witness: the amended case analysis applied to a concrete
transport error. -/
theorem claim_C6_witness :
    get_population_and_area_wikidata (.requestError "boom") =
      .err "Request failed: boom" :=
  (claim_C6 (.requestError "boom")).1 "boom" rfl

/-- C10: on a first binding whose population parses and whose area
value parses to the float 0.0, both embedded fetch functions take the
unknown-area branch (Python `if area:` is false at 0.0), returning the
sentinel record exactly as if the area were missing; moreover, for
every upstream response, a numeric density in a successful record is
always the division of the population by a NON-ZERO area, so the
division by zero is unreachable. -/
theorem claim_C10 (b : SparqlBinding) (rest : List SparqlBinding) (p : Int)
    (hpop : b.population.bind WdValue.asInt = some p)
    (hzero : b.area.bind WdValue.asFloat = some 0) :
    get_population_and_area_wikidata (.results (b :: rest)) =
      .ok { population := p, area_km2 := .str "Unknown",
            population_density := .str "Cannot calculate (no area data)" } ∧
    get_population_and_area_wikidata (.results (b :: rest)) =
      get_population_and_area_wikidata
        (.results ({ population := b.population, area := none } :: rest)) ∧
    app_get_population_and_area_wikidata (.results (b :: rest)) =
      .ok { population := p, area_km2 := .str "Unknown",
            population_density := .str "Cannot calculate (no area data)" } ∧
    (∀ resp r q, get_population_and_area_wikidata resp = .ok r →
      r.population_density = .num q →
      ∃ a : ℚ, a ≠ 0 ∧ r.area_km2 = .num a ∧ q = (r.population : ℚ) / a) := by
  refine ⟨?_, ?_, ?_, ?_⟩
  · simp [get_population_and_area_wikidata, hpop, hzero]
  · simp [get_population_and_area_wikidata, hpop, hzero]
  · simp [app_get_population_and_area_wikidata, hpop, hzero]
  · intro resp r q hok hq
    cases resp with
    | requestError m => simp [get_population_and_area_wikidata] at hok
    | results bs =>
      cases bs with
      | nil => simp [get_population_and_area_wikidata] at hok
      | cons b2 rest2 =>
        cases hp2 : b2.population.bind WdValue.asInt with
        | none => simp [get_population_and_area_wikidata, hp2] at hok
        | some p2 =>
          cases ha2 : b2.area.bind WdValue.asFloat with
          | none =>
            simp [get_population_and_area_wikidata, hp2, ha2] at hok
            subst hok
            simp at hq
          | some a2 =>
            by_cases h0 : a2 = 0
            · subst h0
              simp [get_population_and_area_wikidata, hp2, ha2] at hok
              subst hok
              simp at hq
            · simp [get_population_and_area_wikidata, hp2, ha2, h0] at hok
              subst hok
              simp at hq
              exact ⟨a2, h0, rfl, by rw [hq]⟩

/-- C10 witness: the zero-area behaviour at a concrete binding with
population 5 and area 0.0. -/
theorem claim_C10_witness :
    get_population_and_area_wikidata (.results [zeroAreaBinding]) =
      get_population_and_area_wikidata
        (.results [{ population := zeroAreaBinding.population, area := none }]) :=
  (claim_C10 zeroAreaBinding [] 5 rfl rfl).2.1

/-- Filtering on one admin level commutes with `orderedInsert` for the
sort relation of the source: an inserted element only passes over
strictly larger levels, so it lands in front of every element of its
own level. -/
lemma filter_orderedInsert_level (a : AdministrativeArea)
    (s : List AdministrativeArea) (l : Int) :
    (List.orderedInsert areaGe a s).filter (fun x => x.admin_level == l) =
      if a.admin_level == l then a :: s.filter (fun x => x.admin_level == l)
      else s.filter (fun x => x.admin_level == l) := by
  induction s with
  | nil =>
    by_cases hal : (a.admin_level == l) = true <;>
      simp [List.orderedInsert, List.filter_cons, hal]
  | cons b s ih =>
    by_cases hr : areaGe a b
    · rw [List.orderedInsert, if_pos hr]
      simp [List.filter_cons]
    · rw [List.orderedInsert, if_neg hr, List.filter_cons, ih]
      have hlt : a.admin_level < b.admin_level := by
        simpa [areaGe, not_le] using hr
      by_cases hal : (a.admin_level == l) = true
      · have hbl : (b.admin_level == l) = false := by
          rw [beq_iff_eq] at hal
          rw [beq_eq_false_iff_ne]
          omega
        simp [hal, hbl, List.filter_cons]
      · by_cases hbl : (b.admin_level == l) = true <;>
          simp [hal, hbl, List.filter_cons]

/-- Filtering on one admin level is invariant under the stable
descending insertion sort of the source. -/
lemma filter_insertionSort_level (s : List AdministrativeArea) (l : Int) :
    (List.insertionSort areaGe s).filter (fun x => x.admin_level == l) =
      s.filter (fun x => x.admin_level == l) := by
  induction s with
  | nil => rfl
  | cons a s ih =>
    rw [List.insertionSort, filter_orderedInsert_level, List.filter_cons]
    by_cases hal : (a.admin_level == l) = true <;> simp [hal, ih]

/-- Element carrying a wikidata tag but NO name tag (and no admin_level
tag). -/
def noNameElement : OsmElement :=
  { tags := some { name := none, wikidata := some "Q5", admin_level := none } }

/-- Element with name, wikidata and an unparsable admin_level tag. -/
def badLevelElement : OsmElement :=
  { tags := some { name := some "Ville", wikidata := some "Q7",
                   admin_level := some none } }

/-- Element with name and wikidata whose admin_level parses to 6. -/
def level6Element : OsmElement :=
  { tags := some { name := some "Town", wikidata := some "Q8",
                   admin_level := some (some 6) } }

/-- C7: over any upstream element list, every retained element whose
admin_level tag is missing or unparsable is assigned the sentinel level
99; the returned list is sorted in descending admin_level order; ties
keep the upstream relative order (the sublist at each fixed level is
exactly the upstream sublist at that level); and consequently every
area preceding a sentinel-99 area itself has level at least 99, so
sentinel areas come before all areas of smaller parsed level. -/
theorem claim_C7 (els : List OsmElement) :
    List.Sorted areaGe (get_osm_administrative_areas (.elements els)) ∧
    (∀ l : Int,
      (get_osm_administrative_areas (.elements els)).filter
          (fun a => a.admin_level == l) =
        (els.filterMap elementToArea).filter (fun a => a.admin_level == l)) ∧
    (∀ el t, el ∈ els → el.tags = some t → t.wikidata.isSome = true →
      (t.admin_level = none ∨ t.admin_level = some none) →
      ∃ a, elementToArea el = some a ∧ a.admin_level = 99 ∧
        a ∈ get_osm_administrative_areas (.elements els)) ∧
    List.Pairwise (fun a b => b.admin_level = 99 → (99:Int) ≤ a.admin_level)
      (get_osm_administrative_areas (.elements els)) := by
  refine ⟨?_, ?_, ?_, ?_⟩
  · exact List.sorted_insertionSort areaGe _
  · intro l
    exact filter_insertionSort_level _ l
  · intro el t hel htags hwd hlev
    obtain ⟨w, hw⟩ := Option.isSome_iff_exists.mp hwd
    have hparse : parseAdminLevel t = 99 := by
      rcases hlev with h | h <;> simp [parseAdminLevel, h]
    have harea : elementToArea el =
        some { name := t.name, wikidata_id := w, admin_level := 99 } := by
      simp [elementToArea, htags, hw, hparse]
    refine ⟨_, harea, rfl, ?_⟩
    have hmem : ({ name := t.name, wikidata_id := w, admin_level := 99 }
        : AdministrativeArea) ∈ els.filterMap elementToArea :=
      List.mem_filterMap.mpr ⟨el, hel, harea⟩
    simpa [get_osm_administrative_areas, List.mem_insertionSort] using hmem
  · have hs : List.Pairwise areaGe (get_osm_administrative_areas (.elements els)) :=
      List.sorted_insertionSort areaGe _
    exact hs.imp (fun h hb => by unfold areaGe at h; rw [hb] at h; exact h)

/-- C7 witness: the sort, sentinel and stability facts at a concrete
element list containing an unparsable level, a missing level and a
parsed level 6: the two sentinel areas come first, in upstream order,
followed by the level-6 area. -/
theorem claim_C7_witness :
    ∃ a, elementToArea badLevelElement = some a ∧ a.admin_level = 99 ∧
      a ∈ get_osm_administrative_areas
        (.elements [badLevelElement, level6Element, noNameElement]) :=
  (claim_C7 [badLevelElement, level6Element, noNameElement]).2.2.1
    badLevelElement
    { name := some "Ville", wikidata := some "Q7", admin_level := some none }
    (by decide) rfl rfl (Or.inr rfl)

/-- C8 counterexample: an element whose tags carry a wikidata identifier
but NO name is retained (with a null name) instead of being dropped:
the source only tests the presence of the tags mapping and the wikidata
key. -/
theorem claim_C8_cex :
    get_osm_administrative_areas (.elements [noNameElement]) =
      [{ name := none, wikidata_id := "Q5", admin_level := 99 }] ∧
    noNameElement.tags = some { name := none, wikidata := some "Q5",
                                admin_level := none } := by decide

/-- C8 (amended): the returned areas are, up to the descending sort, in
bijection with the upstream elements that carry a tags mapping
containing the wikidata identifier; an element is retained exactly when
it has such a mapping, REGARDLESS of whether a name tag is present (a
missing name yields a null name in the output), and every other element
is silently dropped, which is not an error. -/
theorem claim_C8 (els : List OsmElement) :
    (get_osm_administrative_areas (.elements els)).Perm
      (els.filterMap elementToArea) ∧
    (∀ el : OsmElement, (elementToArea el).isSome = true ↔
      ∃ t w, el.tags = some t ∧ t.wikidata = some w) := by
  constructor
  · exact List.perm_insertionSort areaGe _
  · intro el
    constructor
    · intro h
      cases htags : el.tags with
      | none => simp [elementToArea, htags] at h
      | some t =>
        cases hw : t.wikidata with
        | none => simp [elementToArea, htags, hw] at h
        | some w => exact ⟨t, w, rfl, hw⟩
    · rintro ⟨t, w, htags, hw⟩
      simp [elementToArea, htags, hw]

/-- C8 witness: the amended retention criterion applied to the concrete
nameless element, which is retained. -/
theorem claim_C8_witness : (elementToArea noNameElement).isSome = true :=
  (claim_C8 [noNameElement]).2 noNameElement |>.mpr
    ⟨{ name := none, wikidata := some "Q5", admin_level := none }, "Q5", rfl, rfl⟩

/-- Alternatives loop invariant: when the fetch of every candidate in
the list fails, the loop finds nothing. -/
lemma tryAlternatives_all_err (u : Upstream) (origId : String) (alts : List String)
    (h : ∀ c ∈ alts, (get_population_and_area_wikidata (u.sparql c)).isErr = true) :
    (tryAlternatives u origId alts).1 = none := by
  induction alts with
  | nil => rfl
  | cons c cs ih =>
    have hc := h c (List.mem_cons_self c cs)
    have hcs : ∀ d ∈ cs, (get_population_and_area_wikidata (u.sparql d)).isErr = true :=
      fun d hd => h d (List.mem_cons_of_mem c hd)
    by_cases he : c = origId
    · rw [tryAlternatives, if_pos he]
      exact ih hcs
    · cases hf : get_population_and_area_wikidata (u.sparql c) with
      | ok r => rw [hf] at hc; simp [FetchResult.isErr] at hc
      | err m =>
        simp only [tryAlternatives, if_neg he, hf]
        exact ih hcs

/-- Area loop invariant: when the fetch of every area and of every
search candidate of every area fails, the loop returns the exhausted
error value of the source. -/
lemma densityLoop_all_err (u : Upstream) (areas : List AdministrativeArea)
    (h : ∀ a ∈ areas,
      (get_population_and_area_wikidata (u.sparql a.wikidata_id)).isErr = true ∧
      ∀ c ∈ search_alternative_wikidata_ids (u.search a.name),
        (get_population_and_area_wikidata (u.sparql c)).isErr = true) :
    (densityLoop u areas).1 =
      .err "Could not fetch population or area data from Wikidata for any administrative area." := by
  induction areas with
  | nil => rfl
  | cons a rest ih =>
    obtain ⟨ha, halts⟩ := h a (List.mem_cons_self a rest)
    have hrest := fun b hb => h b (List.mem_cons_of_mem a hb)
    cases hf : get_population_and_area_wikidata (u.sparql a.wikidata_id) with
    | ok r => rw [hf] at ha; simp [FetchResult.isErr] at ha
    | err m =>
      have hnone := tryAlternatives_all_err u a.wikidata_id _ halts
      simp only [densityLoop, hf, hnone]
      exact ih hrest

/-- The only error value the area loop ever returns is the exhausted
error value of the source. -/
lemma densityLoop_err_msg (u : Upstream) (areas : List AdministrativeArea) (msg : String)
    (h : (densityLoop u areas).1 = .err msg) :
    msg = "Could not fetch population or area data from Wikidata for any administrative area." := by
  induction areas with
  | nil =>
    simp only [densityLoop] at h
    exact (PDResult.err.inj h).symm
  | cons a rest ih =>
    cases hf : get_population_and_area_wikidata (u.sparql a.wikidata_id) with
    | ok r => simp [densityLoop, hf] at h
    | err m =>
      cases halt : (tryAlternatives u a.wikidata_id
          (search_alternative_wikidata_ids (u.search a.name))).1 with
      | some ar => simp [densityLoop, hf, halt] at h
      | none =>
        simp only [densityLoop, hf, halt] at h
        exact ih h

/-- The two embedded fetch functions succeed on exactly the same
responses, with exactly the same record (they differ only in one error
message text). -/
lemma app_fetch_ok_iff (resp : SparqlResponse) (r : DensityRecord) :
    app_get_population_and_area_wikidata resp = .ok r ↔
      get_population_and_area_wikidata resp = .ok r := by
  cases resp with
  | requestError m =>
    simp [app_get_population_and_area_wikidata, get_population_and_area_wikidata]
  | results bs =>
    cases bs with
    | nil =>
      simp [app_get_population_and_area_wikidata, get_population_and_area_wikidata]
    | cons b rest =>
      cases hp : b.population.bind WdValue.asInt with
      | none =>
        simp [app_get_population_and_area_wikidata, get_population_and_area_wikidata, hp]
      | some p =>
        cases ha : b.area.bind WdValue.asFloat with
        | none =>
          simp [app_get_population_and_area_wikidata, get_population_and_area_wikidata,
            hp, ha]
        | some a =>
          by_cases h0 : a = 0 <;>
            simp [app_get_population_and_area_wikidata, get_population_and_area_wikidata,
              hp, ha, h0]

/-- The two embedded alternatives loops agree on every input. -/
lemma tryAlternatives_eq (u : Upstream) (origId : String) (alts : List String) :
    app_tryAlternatives u origId alts = tryAlternatives u origId alts := by
  induction alts with
  | nil => rfl
  | cons c cs ih =>
    by_cases he : c = origId
    · simp only [app_tryAlternatives, tryAlternatives, if_pos he, ih]
    · simp only [app_tryAlternatives, tryAlternatives, if_neg he]
      cases happ : app_get_population_and_area_wikidata (u.sparql c) with
      | ok r =>
        have hpd := (app_fetch_ok_iff (u.sparql c) r).mp happ
        simp [happ, hpd]
      | err m =>
        cases hpd : get_population_and_area_wikidata (u.sparql c) with
        | ok r =>
          have h2 := (app_fetch_ok_iff (u.sparql c) r).mpr hpd
          rw [happ] at h2
          cases h2
        | err m2 => simp [happ, hpd, ih]

/-- The two embedded area loops agree on every input, including the
sequence of fetched identifiers. -/
lemma densityLoop_eq (u : Upstream) (areas : List AdministrativeArea) :
    app_densityLoop u areas = densityLoop u areas := by
  induction areas with
  | nil => rfl
  | cons a rest ih =>
    cases happ : app_get_population_and_area_wikidata (u.sparql a.wikidata_id) with
    | ok r =>
      have hpd := (app_fetch_ok_iff _ r).mp happ
      simp [app_densityLoop, densityLoop, happ, hpd]
    | err m =>
      cases hpd : get_population_and_area_wikidata (u.sparql a.wikidata_id) with
      | ok r =>
        have h2 := (app_fetch_ok_iff _ r).mpr hpd
        rw [happ] at h2
        cases h2
      | err m2 =>
        simp only [app_densityLoop, densityLoop, happ, hpd, tryAlternatives_eq, ih]

/-- C1: when the boundary list begins with area A carrying identifier
Q1, the fetch of Q1 fails, the alternative search for the name of A
returns the candidates Q1 and Q9, and the fetch of Q9 succeeds with
record r, the resolution returns the record under the name and level of
A with `wikidata_id` Q9, and the complete sequence of fetched
identifiers is exactly Q1 then Q9: the candidate equal to the original
identifier is skipped (Q1 is not fetched twice) and no later
administrative area is consulted. -/
theorem claim_C1 (u : Upstream) (A : AdministrativeArea)
    (rest : List AdministrativeArea) (r : DensityRecord) (e : String)
    (hAreas : get_osm_administrative_areas u.overpass = A :: rest)
    (hid : A.wikidata_id = "Q1")
    (hQ1 : get_population_and_area_wikidata (u.sparql "Q1") = .err e)
    (hSearch : search_alternative_wikidata_ids (u.search A.name) = ["Q1", "Q9"])
    (hQ9 : get_population_and_area_wikidata (u.sparql "Q9") = .ok r) :
    get_population_density_traced u =
      (.ok { location := A.name, admin_level := A.admin_level,
             population := r.population, area_km2 := r.area_km2,
             population_density := r.population_density, wikidata_id := some "Q9" },
       ["Q1", "Q9"]) := by
  have hne : ¬ get_osm_administrative_areas u.overpass = [] := by simp [hAreas]
  have htry : tryAlternatives u "Q1" ["Q1", "Q9"] = (some ("Q9", r), ["Q9"]) := by
    simp [tryAlternatives, hQ9]
  rw [get_population_density_traced, if_neg hne, hAreas]
  simp only [densityLoop, hid, hQ1, hSearch, htry]

/-- Area dictionary produced by the element with name Springfield,
identifier Q1 and admin_level 8. -/
def areaA : AdministrativeArea :=
  { name := some "Springfield", wikidata_id := "Q1", admin_level := 8 }

/-- Area dictionary produced by the element with name Region,
identifier Q2 and admin_level 4. -/
def areaB : AdministrativeArea :=
  { name := some "Region", wikidata_id := "Q2", admin_level := 4 }

/-- Overpass element yielding `areaA`. -/
def el8 : OsmElement :=
  { tags := some { name := some "Springfield", wikidata := some "Q1",
                   admin_level := some (some 8) } }

/-- Overpass element yielding `areaB`. -/
def el4 : OsmElement :=
  { tags := some { name := some "Region", wikidata := some "Q2",
                   admin_level := some (some 4) } }

/-- Binding with population 1000 and no area (the success record then
carries the two sentinels, which keeps every witness free of rational
division). -/
def goodRecordBinding : SparqlBinding :=
  { population := some { asInt := some 1000, asFloat := some 1000 }, area := none }

/-- The record produced by fetching `goodRecordBinding`. -/
def goodRecord : DensityRecord :=
  { population := 1000, area_km2 := .str "Unknown",
    population_density := .str "Cannot calculate (no area data)" }

/-- Upstream environment of the C1 witness: one boundary (Q1), fetch
fails on everything except Q9, search returns Q1 then Q9. -/
def u1 : Upstream :=
  { overpass := .elements [el8],
    sparql := fun id => if id = "Q9" then .results [goodRecordBinding]
                        else .requestError "boom",
    search := fun _ => .results ["Q1", "Q9"] }

/-- C1 witness: the theorem applied to the concrete environment `u1`. -/
theorem claim_C1_witness :
    get_population_density_traced u1 =
      (.ok { location := some "Springfield", admin_level := 8, population := 1000,
             area_km2 := .str "Unknown",
             population_density := .str "Cannot calculate (no area data)",
             wikidata_id := some "Q9" },
       ["Q1", "Q9"]) :=
  claim_C1 u1 areaA [] goodRecord "Request failed: boom"
    (by decide) rfl (by decide) rfl (by decide)

/-- C2: on a boundary list of exactly A (level 8, id Q1) and B (level
4, id Q2), where the fetch of Q1 fails, every search candidate for the
name of A fails to fetch, and the fetch of Q2 succeeds with record r,
the resolution reports the name and level of B with no `wikidata_id`
key: the next larger area is consulted only after exhausting the
alternatives of A. -/
theorem claim_C2 (u : Upstream) (A B : AdministrativeArea) (r : DensityRecord)
    (e : String)
    (hAreas : get_osm_administrative_areas u.overpass = [A, B])
    (hAlev : A.admin_level = 8) (hAid : A.wikidata_id = "Q1")
    (hBlev : B.admin_level = 4) (hBid : B.wikidata_id = "Q2")
    (hQ1 : get_population_and_area_wikidata (u.sparql "Q1") = .err e)
    (hAlts : ∀ c ∈ search_alternative_wikidata_ids (u.search A.name),
      (get_population_and_area_wikidata (u.sparql c)).isErr = true)
    (hQ2 : get_population_and_area_wikidata (u.sparql "Q2") = .ok r) :
    get_population_density u =
      .ok { location := B.name, admin_level := B.admin_level,
            population := r.population, area_km2 := r.area_km2,
            population_density := r.population_density, wikidata_id := none } := by
  have hne : ¬ get_osm_administrative_areas u.overpass = [] := by simp [hAreas]
  have hnone := tryAlternatives_all_err u A.wikidata_id _ hAlts
  rw [hAid] at hnone
  rw [get_population_density, get_population_density_traced, if_neg hne, hAreas]
  simp only [densityLoop, hAid, hBid, hQ1, hnone, hQ2]

/-- Upstream environment of the C2 witness: boundaries Q1 (level 8)
and Q2 (level 4); fetch succeeds only on Q2; search returns only Q1
(which is skipped as the already-tried identifier). -/
def u2 : Upstream :=
  { overpass := .elements [el8, el4],
    sparql := fun id => if id = "Q2" then .results [goodRecordBinding]
                        else .requestError "down",
    search := fun _ => .results ["Q1"] }

/-- C2 witness: the theorem applied to the concrete environment `u2`. -/
theorem claim_C2_witness :
    get_population_density u2 =
      .ok { location := some "Region", admin_level := 4, population := 1000,
            area_km2 := .str "Unknown",
            population_density := .str "Cannot calculate (no area data)",
            wikidata_id := none } :=
  claim_C2 u2 areaA areaB goodRecord "Request failed: down"
    (by decide) rfl rfl rfl rfl (by decide) (by decide) (by decide)

/-- C4: the resolution surfaces exactly two top-level failures, both as
returned values: on an empty boundary list it returns the
no-administrative-area error without fetching anything (the trace of
fetched identifiers is empty); when every area and every candidate
fails it returns the no-valid-data error; and every error value it can
ever return is one of these two. -/
theorem claim_C4 (u : Upstream) :
    (get_osm_administrative_areas u.overpass = [] →
      get_population_density_traced u =
        (.err "No administrative areas found for this location.", [])) ∧
    (get_osm_administrative_areas u.overpass ≠ [] →
      (∀ a ∈ get_osm_administrative_areas u.overpass,
        (get_population_and_area_wikidata (u.sparql a.wikidata_id)).isErr = true ∧
        ∀ c ∈ search_alternative_wikidata_ids (u.search a.name),
          (get_population_and_area_wikidata (u.sparql c)).isErr = true) →
      get_population_density u =
        .err "Could not fetch population or area data from Wikidata for any administrative area.") ∧
    (∀ msg, get_population_density u = .err msg →
      msg = "No administrative areas found for this location." ∨
      msg = "Could not fetch population or area data from Wikidata for any administrative area.") := by
  refine ⟨?_, ?_, ?_⟩
  · intro h
    rw [get_population_density_traced, if_pos h]
  · intro hne hall
    rw [get_population_density, get_population_density_traced, if_neg hne]
    exact densityLoop_all_err u _ hall
  · intro msg h
    rw [get_population_density, get_population_density_traced] at h
    by_cases hempty : get_osm_administrative_areas u.overpass = []
    · rw [if_pos hempty] at h
      exact Or.inl (PDResult.err.inj h).symm
    · rw [if_neg hempty] at h
      exact Or.inr (densityLoop_err_msg u _ msg h)

/-- Upstream environment with an empty boundary response. -/
def u0 : Upstream :=
  { overpass := .elements [],
    sparql := fun _ => .requestError "x",
    search := fun _ => .requestError "x" }

/-- C4 witness: the empty-boundary case of the theorem at the concrete
environment `u0`, where the trace of fetched identifiers is empty. -/
theorem claim_C4_witness :
    get_population_density_traced u0 =
      (.err "No administrative areas found for this location.", []) :=
  (claim_C4 u0).1 (by decide)

/-- Binding whose population value parses neither as an int (its value
is unparsable), exhibiting the one textual difference between the two
fetch helpers. -/
def unparsablePopBinding : SparqlBinding :=
  { population := some { asInt := none, asFloat := none }, area := none }

/-- C9 counterexample: the helper `get_population_and_area_wikidata`
does NOT produce the same observable result at the two call sites: on
an unparsable population the src/app.py version returns the error
string `Population data is not valid.` while the
src/population_density.py version returns
`Population data is not in a valid format.`. -/
theorem claim_C9_cex :
    app_get_population_and_area_wikidata (.results [unparsablePopBinding]) ≠
      get_population_and_area_wikidata (.results [unparsablePopBinding]) := by
  decide

/-- C9 (amended): the two resolution entry points are extensionally
equal on every input and every upstream response, and even perform the
same sequence of fetch calls; among the duplicated helpers,
`get_osm_administrative_areas` and `search_alternative_wikidata_ids`
are shared verbatim, while the two fetch helpers agree on every
successful record and on failure classification, differing only in the
text of the invalid-population error message, which the resolution
entry points never expose. -/
theorem claim_C9 (u : Upstream) :
    app_get_population_density u = get_population_density u ∧
    app_get_population_density_traced u = get_population_density_traced u ∧
    (∀ resp r, app_get_population_and_area_wikidata resp = .ok r ↔
      get_population_and_area_wikidata resp = .ok r) := by
  have htraced : app_get_population_density_traced u = get_population_density_traced u := by
    rw [app_get_population_density_traced, get_population_density_traced]
    by_cases hempty : get_osm_administrative_areas u.overpass = []
    · rw [if_pos hempty, if_pos hempty]
    · rw [if_neg hempty, if_neg hempty, densityLoop_eq]
  refine ⟨?_, htraced, app_fetch_ok_iff⟩
  rw [app_get_population_density, get_population_density, htraced]

/-- C9 witness: equality of the two resolution entry points at the
concrete environment `u1`. -/
theorem claim_C9_witness : app_get_population_density u1 = get_population_density u1 :=
  (claim_C9 u1).1
